import Mathlib

/-!
Verification of the PiGuard WIDS core against its natural-language
specification.  The Python source is shallowly embedded: Python strings
are lists of characters, Python sets are finite sets, Python dicts
(which preserve insertion order) are association lists, and fallible
code is modelled with Option and Except.  Each definition is a direct
translation of the corresponding function in the repository.
-/

set_option maxRecDepth 8000

namespace PiGuard

/-- Python strings are modelled as lists of characters so that all
operations used by the code (lower, strip, split, join) compute. -/
abbrev PyStr := List Char

/-- Convert a Lean string literal into the character-list model. -/
def pystr (s : String) : PyStr := s.data

/-- Python str.lower, character by character. -/
def pyLower (s : PyStr) : PyStr := s.map Char.toLower

/-- Python str.strip: remove leading and trailing whitespace. -/
def pyStrip (s : PyStr) : PyStr :=
  ((s.dropWhile Char.isWhitespace).reverse.dropWhile Char.isWhitespace).reverse

/-- Python sep.join applied to a list of strings. -/
def pyJoin (sep : Char) : List PyStr → PyStr
  | [] => []
  | [x] => x
  | x :: xs => x ++ sep :: pyJoin sep xs

/-- Helper for pySplit: scan the string, accumulating the current field
in reverse. -/
def pySplitAux (sep : Char) : PyStr → PyStr → List PyStr
  | [], acc => [acc.reverse]
  | c :: cs, acc =>
      if c = sep then acc.reverse :: pySplitAux sep cs []
      else pySplitAux sep cs (c :: acc)

/-- Python s.split(sep) for a one-character separator; note that the
empty string splits to a singleton list holding the empty string,
exactly as in Python. -/
def pySplit (sep : Char) (s : PyStr) : List PyStr := pySplitAux sep s []

/-! ### src/wids/ie/rsn.py -/

/-- Two lowercase hex digits of a byte, Python format spec 02x
(the argument is a byte, so it is below 256). -/
def hex2 (b : Nat) : PyStr := [Nat.digitChar (b / 16), Nat.digitChar (b % 16)]

/-- Python f-string decimal rendering of a natural number. -/
def decStr (n : Nat) : PyStr := Nat.toDigits 10 n

/-- The function of rsn.py: format a 4-byte suite selector as
oo:oo:oo:s (lowercase-hex OUI, decimal suite type); other lengths fall
back to the plain hex dump of the bytes, as bytes.hex() does. -/
def _fmt_selector (b : List Nat) : PyStr :=
  if b.length ≠ 4 then (b.map hex2).flatten
  else
    hex2 (b.getD 0 0) ++ ':' :: hex2 (b.getD 1 0) ++ ':' :: hex2 (b.getD 2 0)
      ++ ':' :: decStr (b.getD 3 0)

/-- A selector string: the image of a 4-byte suite under the formatter
of rsn.py.  This is the shape of every element of the akms/ciphers
sets the parser produces. -/
def IsSelector (s : PyStr) : Prop :=
  ∃ b0 b1 b2 b3 : Nat, b0 < 256 ∧ b1 < 256 ∧ b2 < 256 ∧ b3 < 256 ∧
    s = _fmt_selector [b0, b1, b2, b3]

/-- Python data.ofoff slice of four bytes starting at off. -/
def slice4 (data : List Nat) (off : Nat) : List Nat := (data.drop off).take 4

/-- Two-byte little-endian count read at offset off (int.from_bytes). -/
def leU16 (data : List Nat) (off : Nat) : Nat :=
  data.getD off 0 + 256 * data.getD (off + 1) 0

/-- Result of the RSN parse: the akms and ciphers selector sets. -/
structure RsnInfo where
  akms : Finset PyStr
  ciphers : Finset PyStr
deriving DecidableEq

/-- One selector-list reading loop of parse_rsn_info: read up to n
4-byte selectors starting at off, stopping early (Python break) when
the data runs out; returns the accumulated set and the final offset. -/
def readSelectors : Nat → List Nat → Nat → Finset PyStr → Finset PyStr × Nat
  | 0, _, off, acc => (acc, off)
  | n + 1, data, off, acc =>
      if data.length < off + 4 then (acc, off)
      else readSelectors n data (off + 4) (insert (_fmt_selector (slice4 data off)) acc)

/-- The AKM stage of parse_rsn_info: pr is the cipher set and offset
left by the pairwise stage; when the AKM count itself is cut off the
partial result is returned with empty akms, otherwise the AKM selector
list is read. -/
def parse_rsn_tail (data : List Nat) (pr : Finset PyStr × Nat) : Option RsnInfo :=
  if data.length < pr.2 + 2 then some ⟨∅, pr.1⟩
  else some ⟨(readSelectors (leU16 data pr.2) data (pr.2 + 2) ∅).1, pr.1⟩

/-- The pairwise stage of parse_rsn_info: the cipher set seeded with
the group cipher suite (parsed at offset 2) and grown by the pairwise
selector list (count at offset 6, selectors from offset 8), together
with the offset at which reading stopped. -/
def pairwise_stage (data : List Nat) : Finset PyStr × Nat :=
  readSelectors (leU16 data 6) data 8 {_fmt_selector (slice4 data 2)}

/-- The payload-parsing core of parse_rsn_info in rsn.py, acting on the
bytes of an RSN information element (element id 48).  The value none
models the Python return of the empty dict (no fields at all); some
models a dict with both keys present.  Offsets: 2 bytes version, 4
bytes group cipher, 2 bytes pairwise count, then the selector lists. -/
def parse_rsn_data (data : List Nat) : Option RsnInfo :=
  if data.length < 2 then none
  else if data.length < 2 + 4 then none
  else if data.length < 6 + 2 then none
  else parse_rsn_tail data (pairwise_stage data)

/-! ### Selector encoding and decoding (live.py handle, sensor loop) -/

/-- Python sorted() over a set of strings: the lexicographically sorted
enumeration of the finite set. -/
def sortedSel (S : Finset PyStr) : List PyStr := S.sort (· ≤ ·)

/-- Encoding used when an Event is persisted in live.py:
comma-join of the sorted selector set. -/
def encode_selectors (S : Finset PyStr) : PyStr := pyJoin ',' (sortedSel S)

/-- Decoding used by the sensor loop when reading an Event column:
set(x.split(befcomma)) guarded by Python truthiness, so both a missing
column and the empty string give the empty set. -/
def decode_selectors (s : PyStr) : Finset PyStr :=
  if s = [] then ∅ else (pySplit ',' s).toFinset

/-- Decoding of an optional column value, matching the sensor loop
expression over e.rsn_akms / e.rsn_ciphers. -/
def decode_opt (s : Option PyStr) : Finset PyStr :=
  match s with
  | none => ∅
  | some t => decode_selectors t

/-! ### src/wids/db.py ensure_schema -/

/-- The try/except pass pattern of db.py: run a fallible action and
swallow any error, substituting a default value. -/
def tryPass {α : Type} (m : Except PyStr α) (dflt : α) : Except PyStr α :=
  match m with
  | .ok a => .ok a
  | .error _ => .ok dflt

/-- A fallible primitive action that succeeds or raises. -/
def attempt (ok : Bool) (err : PyStr) : Except PyStr Unit :=
  if ok then .ok () else .error err

/-- The PRAGMA table introspection of ensure_schema: the environment
either yields the column names or raises. -/
def introspectCols (res : Option (List PyStr)) : Except PyStr (List PyStr) :=
  match res with
  | some cols => .ok cols
  | none => .error (pystr "introspect failed")

/-- ALTER statement adding the rsn_akms column. -/
def alterAkms : PyStr := pystr "ALTER TABLE event ADD COLUMN rsn_akms TEXT NULL;"

/-- ALTER statement adding the rsn_ciphers column. -/
def alterCiphers : PyStr := pystr "ALTER TABLE event ADD COLUMN rsn_ciphers TEXT NULL;"

/-- The list of ALTER TABLE statements ensure_schema deems required
given the introspected column set. -/
def required_alters_of (cols : List PyStr) : List PyStr :=
  (if pystr "rsn_akms" ∈ cols then [] else [alterAkms])
    ++ (if pystr "rsn_ciphers" ∈ cols then [] else [alterCiphers])

/-- The ensure_schema migration of db.py.  The introspection is wrapped
in try/except pass (columns default to the empty set), each ALTER is
wrapped in its own try/except pass (alterOk says whether the statement
applies), and only the final commit is outside any handler. -/
def ensure_schema (introspect : Option (List PyStr)) (alterOk : PyStr → Bool)
    (commitOk : Bool) : Except PyStr Unit :=
  match tryPass (introspectCols introspect) [] with
  | .error e => .error e
  | .ok cols =>
    match (required_alters_of cols).foldlM
        (fun _ stmt => tryPass (attempt (alterOk stmt) stmt) ()) () with
    | .error e => .error e
    | .ok _ => attempt commitOk (pystr "commit failed")

/-! ### src/wids/sensor/main.py: deauth detection -/

/-- An event row as read by the deauth window query (only the columns
the query consults). -/
structure Ev where
  ts : Int
  type : PyStr
  src : Option PyStr
deriving DecidableEq

/-- The grouped source column of the deauth query of detect_deauths:
events in the window of type mgmt.deauth, each contributing
COALESCE(LOWER(src), the string unknown). -/
def deauthSrcs (events : List Ev) (since : Int) : List PyStr :=
  (events.filter (fun e => since ≤ e.ts ∧ e.type = pystr "mgmt.deauth")).map
    (fun e =>
      match e.src with
      | some s => pyLower s
      | none => pystr "unknown")

/-- detect_deauths of sensor/main.py: per-source deauth counts over the
window, the total, the offender list (sources whose count reaches
per_src_limit) and the trigger flag (total reaches global_limit).  The
defense argument is accepted and, exactly as in the source, never
used. -/
def detect_deauths (defense : Option PyStr) (events : List Ev) (since : Int)
    (per_src_limit global_limit : Int) :
    Bool × Nat × List PyStr × List (PyStr × Nat) :=
  let _ := defense
  let srcs := deauthSrcs events since
  let counts := srcs.dedup.map (fun s => (s, srcs.count s))
  let total := srcs.length
  let offenders := (counts.filter (fun p => per_src_limit ≤ (p.2 : Int))).map Prod.fst
  let triggered := decide (global_limit ≤ (total : Int))
  (triggered, total, offenders, counts)

/-- Alert-suppression state of the sensor loop: timestamp of the last
fired deauth alert and its signature. -/
structure DeauthAlarm where
  last_fire_ts : Int
  last_sig : Option (PyStr × Nat × List PyStr)
deriving DecidableEq

/-- The signature tuple built each tick in the sensor loop:
the literal kind deauth_flood, the total, and the sorted offenders. -/
def mkSig (total : Nat) (offenders : List PyStr) : PyStr × Nat × List PyStr :=
  (pystr "deauth_flood", total, offenders.insertionSort (· ≤ ·))

/-- One deauth tick of the sensor loop as far as alerting is concerned:
fire when triggered unless the cooldown is still running and the
signature is unchanged; on fire, record the fire time and signature.
The returned Bool says whether an alert row was appended. -/
def deauth_tick (cooldown now : Int) (st : DeauthAlarm) (trig : Bool)
    (total : Nat) (offenders : List PyStr) : DeauthAlarm × Bool :=
  if trig = true
      ∧ ¬(now - st.last_fire_ts < cooldown ∧ st.last_sig = some (mkSig total offenders)) then
    ({ last_fire_ts := now, last_sig := some (mkSig total offenders) }, true)
  else (st, false)

/-- Severity chosen for a fired deauth alert in the sensor loop. -/
def deauthSeverity (total : Nat) (glob : Int) : PyStr :=
  if glob * 2 ≤ (total : Int) then pystr "critical" else pystr "warn"

/-! ### src/wids/sensor/main.py: rogue / RSN / PWR detection -/

/-- The defense section of the configuration as the sensor reads it. -/
structure Defense where
  ssid : Option PyStr
  allowed_bssids : List PyStr
  allowed_channels : List Int
  allowed_bands : List PyStr

/-- The defended SSID: (defense.get(ssid) or empty).strip(). -/
def defSsid (d : Defense) : PyStr := pyStrip (d.ssid.getD [])

/-- Allowed BSSIDs, lowercased, as a set. -/
def allowedBssidSet (d : Defense) : Finset PyStr :=
  (d.allowed_bssids.map pyLower).toFinset

/-- Allowed channels as a set. -/
def allowedChanSet (d : Defense) : Finset Int := d.allowed_channels.toFinset

/-- Allowed band tags as a set. -/
def allowedBandSet (d : Defense) : Finset PyStr := d.allowed_bands.toFinset

/-- A beacon event row as consumed by the rogue loop. -/
structure BeaconEv where
  id : Option Int
  ssid : Option PyStr
  bssid : Option PyStr
  chan : Int
  band : PyStr
  rssi : Option Int
  rsn_akms : Option PyStr
  rsn_ciphers : Option PyStr

/-- In-memory state the sensor loop threads across beacons: the RSN
baseline dict (insertion-ordered), the dynamically tracked BSSIDs, the
per-BSSID RSSI deques, the per-BSSID last PWR alert times, and the
remembered beacon-id deque plus its companion membership set. -/
structure SensorState where
  rsn_baseline : List (PyStr × RsnInfo)
  tracked_bssids : Finset PyStr
  pwr_windows : List (PyStr × List Int)
  last_pwr_alert_ts : List (PyStr × Int)
  seen_beacon_ids : List Int
  seen_beacon_set : Finset Int
deriving DecidableEq

/-- Lookup in an insertion-ordered association list (Python dict read). -/
def alookup {β : Type} (k : PyStr) : List (PyStr × β) → Option β
  | [] => none
  | (k1, v) :: rest => if k1 = k then some v else alookup k rest

/-- Write in an insertion-ordered association list (Python dict write):
an existing key keeps its position, a new key is appended. -/
def aset {β : Type} (k : PyStr) (v : β) : List (PyStr × β) → List (PyStr × β)
  | [] => [(k, v)]
  | (k1, v1) :: rest => if k1 = k then (k, v) :: rest else (k1, v1) :: aset k v rest

/-- The last m elements of a list in order: the retention rule of a
deque with maxlen m. -/
def takeLast {α : Type} (m : Nat) (l : List α) : List α := (l.reverse.take m).reverse

/-- Append to a deque with a maximum length, dropping from the left. -/
def dqAppend (maxlen : Nat) (dq : List Int) (x : Int) : List Int :=
  takeLast maxlen (dq ++ [x])

/-- Population variance of the samples in a deque, as an exact
rational (the Python float computation models exactly on integers). -/
def pvariance (l : List Int) : ℚ :=
  let n : ℚ := l.length
  let m : ℚ := ((l.map (fun x => (x : ℚ))).sum) / n
  ((l.map (fun x => ((x : ℚ) - m) ^ 2)).sum) / n

/-- The remember-this-beacon-id helper of the sensor loop, returning
whether the id was new together with the updated state; when the
membership set has outgrown the bounded deque it is rebuilt from the
deque. -/
def remember_eid (st : SensorState) (eid : Int) : Bool × SensorState :=
  if eid ∈ st.seen_beacon_set then (false, st)
  else
    let set1 := insert eid st.seen_beacon_set
    let ids1 := takeLast 10000 (st.seen_beacon_ids ++ [eid])
    let set2 := if ids1.length < set1.card then ids1.toFinset else set1
    (true, { st with seen_beacon_ids := ids1, seen_beacon_set := set2 })

/-- The branch of the per-beacon loop that fired, carrying the data its
f-string summary interpolates. -/
inductive RogueReason
  | unknownBssid (bssid : Option PyStr)
  | unapprovedChannel (chan : Int)
  | unapprovedBand (band : PyStr)
  | rsnMismatch (bssid : Option PyStr)
  | pwrAnomaly (bssid : Option PyStr)
deriving DecidableEq

/-- The baseline-building step of the per-beacon loop: an allowlisted
BSSID with a non-empty RSN whose baseline is not yet stored is appended
to the baseline dict. -/
def update_rsn_baseline (aB : Finset PyStr) (bssid : PyStr) (akms ciphers : Finset PyStr)
    (st : SensorState) : SensorState :=
  if bssid ≠ [] ∧ bssid ∈ aB ∧ (akms ≠ ∅ ∨ ciphers ≠ ∅)
      ∧ (alookup bssid st.rsn_baseline).isNone then
    { st with rsn_baseline := st.rsn_baseline ++ [(bssid, ⟨akms, ciphers⟩)] }
  else st

/-- The tracked-set step of the per-beacon loop: with no explicit
allowlist, every defended-SSID BSSID is learned. -/
def update_tracked (aB : Finset PyStr) (bssid : PyStr) (st : SensorState) : SensorState :=
  if aB = ∅ ∧ bssid ≠ [] then
    { st with tracked_bssids := insert bssid st.tracked_bssids }
  else st

/-- The ordered reason chain of the per-beacon loop: BSSID allowlist,
then allowed channels, then allowed bands, then the RSN-baseline
mismatch check against the first stored baseline. -/
def rogue_reason (aB : Finset PyStr) (aC : Finset Int) (aBand : Finset PyStr)
    (bl : List (PyStr × RsnInfo)) (bssidO : Option PyStr) (bssid : PyStr)
    (chan : Int) (band : PyStr) (akms ciphers : Finset PyStr) : Option RogueReason :=
  if aB ≠ ∅ ∧ (bssid = [] ∨ bssid ∉ aB) then some (.unknownBssid bssidO)
  else if aC ≠ ∅ ∧ chan ∉ aC then some (.unapprovedChannel chan)
  else if aBand ≠ ∅ ∧ band ∉ aBand then some (.unapprovedBand band)
  else if aB ≠ ∅ ∧ bl ≠ [] ∧ (akms ≠ ∅ ∨ ciphers ≠ ∅) then
    match bl.head? with
    | some p =>
        if (p.2.akms ≠ ∅ ∧ akms ≠ ∅ ∧ akms ≠ p.2.akms)
            ∨ (p.2.ciphers ≠ ∅ ∧ ciphers ≠ ∅ ∧ ciphers ≠ p.2.ciphers) then
          some (.rsnMismatch bssidO)
        else none
    | none => none
  else none

/-- The RSN-mismatch condition the reason chain applies against the
first stored baseline entry: a field mismatches only when it is
non-empty on both sides and the sets differ. -/
def rsnMismatchFirst (bl : List (PyStr × RsnInfo)) (akms ciphers : Finset PyStr) : Prop :=
  match bl.head? with
  | some p =>
      (p.2.akms ≠ ∅ ∧ akms ≠ ∅ ∧ akms ≠ p.2.akms)
        ∨ (p.2.ciphers ≠ ∅ ∧ ciphers ≠ ∅ ∧ ciphers ≠ p.2.ciphers)
  | none => False

instance (bl : List (PyStr × RsnInfo)) (akms ciphers : Finset PyStr) :
    Decidable (rsnMismatchFirst bl akms ciphers) :=
  match bl with
  | [] => isFalse fun h => h
  | p :: _ =>
      inferInstanceAs (Decidable ((p.2.akms ≠ ∅ ∧ akms ≠ ∅ ∧ akms ≠ p.2.akms)
        ∨ (p.2.ciphers ≠ ∅ ∧ ciphers ≠ ∅ ∧ ciphers ≠ p.2.ciphers)))

/-- The PWR-variance branch of the per-beacon loop, entered when no
reason fired, the event has an id and the BSSID is non-empty: the
event id is remembered, and a fresh id with an RSSI sample from a
tracked BSSID feeds the deque; enough samples with a variance above
the threshold outside the per-BSSID cooldown fire an anomaly. -/
def pwr_check (aB : Finset PyStr) (pwr_win : Nat) (pwr_var_threshold : ℚ)
    (pwr_cooldown : Int) (now : Int) (bssidO : Option PyStr) (bssid : PyStr)
    (eid : Int) (rssi : Option Int) (st : SensorState) :
    SensorState × Option RogueReason :=
  let pr := remember_eid st eid
  let isNew := pr.1
  let st := pr.2
  match rssi with
  | none => (st, none)
  | some r =>
    if isNew ∧ ((aB ≠ ∅ ∧ bssid ∈ aB) ∨ (aB = ∅ ∧ bssid ∈ st.tracked_bssids)) then
      let dq := (alookup bssid st.pwr_windows).getD []
      let dq := dqAppend (max 3 pwr_win) dq r
      let st := { st with pwr_windows := aset bssid dq st.pwr_windows }
      if max 3 (pwr_win / 2) ≤ dq.length then
        let var := pvariance dq
        if pwr_var_threshold < var
            ∧ pwr_cooldown ≤ now - ((alookup bssid st.last_pwr_alert_ts).getD 0) then
          ({ st with last_pwr_alert_ts := aset bssid now st.last_pwr_alert_ts },
            some (.pwrAnomaly bssidO))
        else (st, none)
      else (st, none)
    else (st, none)

/-- One iteration of the per-beacon rogue loop in sensor/main.py,
covering the baseline update, the tracked-set update, the ordered
policy checks, the RSN-baseline mismatch check and the PWR-variance
branch.  Returns the updated state and the reason of the rogue_ap
alert appended for this beacon, if any. -/
def process_beacon (defense : Defense) (pwr_win : Nat) (pwr_var_threshold : ℚ)
    (pwr_cooldown : Int) (now : Int) (st : SensorState) (e : BeaconEv) :
    SensorState × Option RogueReason :=
  let ssid := defSsid defense
  if ssid = [] then (st, none)
  else
    match e.ssid with
    | none => (st, none)
    | some s =>
      if s = [] ∨ s ≠ ssid then (st, none)
      else
        let bssid := pyLower (e.bssid.getD [])
        let aB := allowedBssidSet defense
        let akms := decode_opt e.rsn_akms
        let ciphers := decode_opt e.rsn_ciphers
        let st := update_rsn_baseline aB bssid akms ciphers st
        let st := update_tracked aB bssid st
        let reason := rogue_reason aB (allowedChanSet defense) (allowedBandSet defense)
          st.rsn_baseline e.bssid bssid e.chan e.band akms ciphers
        match reason, e.id with
        | none, some eid =>
          if bssid = [] then (st, none)
          else pwr_check aB pwr_win pwr_var_threshold pwr_cooldown now e.bssid bssid eid e.rssi st
        | r, _ => (st, r)

/-! ### src/wids/capture/live.py: channel and band derivation -/

/-- The slice of a captured packet that the derivation functions
consult: the 802.11 information elements in order (id, info bytes) and
the radiotap ChannelFrequency when the header carries one. -/
structure Pkt where
  elts : List (Nat × List Nat)
  radiotapFreq : Option Int

/-- The DS Parameter Set scan of the derivation loop: the first byte of
the first element with id 3 and a non-empty info field. -/
def dsChannel : List (Nat × List Nat) → Option Nat
  | [] => none
  | (i, info) :: rest =>
      if i = 3 ∧ 1 ≤ info.length then some (info.headD 0) else dsChannel rest

/-- Python round of a nonnegative quotient n over 5.  The frequencies
the code divides leave remainders 0 to 4, never an exact half, so
round-half-to-even coincides with adding 2 and truncating. -/
def round5 (n : Int) : Int := (n + 2) / 5

/-- The derivation of (chan, band) in live.py: DS Parameter Set first,
with the band inferred from the channel value by range; only when no
DS channel exists is the radiotap ChannelFrequency mapped. -/
def _derive_chan_band (p : Pkt) : Int × PyStr :=
  match dsChannel p.elts with
  | some c =>
      let band :=
        if 1 ≤ c ∧ c ≤ 14 then pystr "2.4"
        else if 36 ≤ c ∧ c ≤ 196 then pystr "5"
        else if 1 ≤ c ∧ c ≤ 233 then pystr "6"
        else pystr "?"
      ((c : Int), band)
  | none =>
      match p.radiotapFreq with
      | some f =>
          if 2412 ≤ f ∧ f ≤ 2484 then (round5 (f - 2407), pystr "2.4")
          else if 5000 ≤ f ∧ f ≤ 5900 then (round5 (f - 5000), pystr "5")
          else if 5955 ≤ f ∧ f ≤ 7115 then (round5 (f - 5955) + 1, pystr "6")
          else (0, pystr "?")
      | none => (0, pystr "?")

/-! ### src/wids/capture/live.py: RSN gating in handle -/

/-- The rsn_akms and rsn_ciphers columns of the Event built by handle in
live.py.  parse_rsn is the sniffer.parse_rsn configuration key (absent
means false); parsed is the parser result, with none standing for the
empty dict.  The columns are the sorted comma-joins when the dict is
truthy and null otherwise. -/
def event_rsn_fields (ev_type : PyStr) (parse_rsn_key : Option Bool)
    (parsed : Option RsnInfo) : Option PyStr × Option PyStr :=
  let parse_rsn := parse_rsn_key.getD false
  let rsn : Option RsnInfo :=
    if ev_type = pystr "mgmt.beacon" ∧ parse_rsn = true then parsed else none
  match rsn with
  | none => (none, none)
  | some r => (some (encode_selectors r.akms), some (encode_selectors r.ciphers))

/-! ### src/wids/capture/live.py: channel hopper plan -/

/-- The capture.hop configuration section as read by the hop loop;
none models an absent key. -/
structure HopCfg where
  enabled : Bool
  mode : Option PyStr
  bands : Option (List PyStr)
  channels_24 : Option (List Int)
  channels_5 : Option (List Int)
  channels_6 : Option (List Int)
  lock_channel : Option Int
  list_channels : Option (List Int)
  dwell_ms : Option Int

/-- Python x or default over an optional list: both a missing key and
an empty list fall back to the default. -/
def orDefault {α : Type} [DecidableEq α] (o : Option (List α)) (d : List α) : List α :=
  match o with
  | none => d
  | some l => if l = [] then d else l

/-- The hop mode: (get mode or all).strip().lower(), constrained to
lock, list or all. -/
def normMode (m : Option PyStr) : PyStr :=
  let base := match m with
    | none => pystr "all"
    | some s => if s = [] then pystr "all" else s
  let m1 := pyLower (pyStrip base)
  if m1 = pystr "lock" ∨ m1 = pystr "list" ∨ m1 = pystr "all" then m1 else pystr "all"

/-- The enabled bands list: get bands or the 2.4 and 5 defaults. -/
def hopBands (h : HopCfg) : List PyStr := orDefault h.bands [pystr "2.4", pystr "5"]

/-- The union-of-bands channel list computed before the mode branch,
with the full 1 to 13 coverage default for 2.4 in mode all. -/
def buildChans (h : HopCfg) (mode : PyStr) (bands : List PyStr) : List Int :=
  let c24 :=
    if h.channels_24 = none ∧ mode = pystr "all" ∧ pystr "2.4" ∈ bands then
      some ((List.range 13).map (fun i => (i : Int) + 1))
    else h.channels_24
  (if pystr "2.4" ∈ bands then orDefault c24 [1, 6, 11] else [])
    ++ (if pystr "5" ∈ bands then orDefault h.channels_5 [36, 40, 44, 48, 149, 153, 157, 161] else [])
    ++ (if pystr "6" ∈ bands then orDefault h.channels_6 [] else [])

/-- The mode branch of _build_plan: the plan source tag and the channel
list it selects. -/
def modeChans (h : HopCfg) (mode : PyStr) (chansAll : List Int) : PyStr × List Int :=
  if mode = pystr "lock" then
    (pystr "lock", match h.lock_channel with | some c => [c] | none => [])
  else if mode = pystr "list" then (pystr "list", h.list_channels.getD [])
  else (pystr "all", chansAll)

/-- The band-tagged plan assembled from a channel list, keeping only
channels admissible for an enabled band. -/
def mkPlan (bands : List PyStr) (chans : List Int) : List (PyStr × Int) :=
  chans.filterMap (fun ch =>
    if 1 ≤ ch ∧ ch ≤ 14 ∧ pystr "2.4" ∈ bands then some (pystr "2.4", ch)
    else if 36 ≤ ch ∧ ch ≤ 196 ∧ pystr "5" ∈ bands then some (pystr "5", ch)
    else if 1 ≤ ch ∧ ch ≤ 233 ∧ pystr "6" ∈ bands then some (pystr "6", ch)
    else none)

/-- The plan source tag and unshuffled plan computed by _build_plan for
a configuration. -/
def planOf (h : HopCfg) : PyStr × List (PyStr × Int) :=
  let mode := normMode h.mode
  let bands := hopBands h
  let pc := modeChans h mode (buildChans h mode bands)
  (pc.1, mkPlan bands pc.2)

/-- The set of channel numbers of a plan (the frozenset the hopper keys
reuse on). -/
def chanSet (plan : List (PyStr × Int)) : Finset Int := (plan.map Prod.snd).toFinset

/-- The adoption key of a plan: the plan source tag together with the
frozenset of its channels; none when the plan is empty. -/
def keyOf (h : HopCfg) : Option (PyStr × Finset Int) :=
  let pc := planOf h
  if pc.2 = [] then none else some (pc.1, chanSet pc.2)

/-- The dwell per step: a positive CLI override wins, otherwise
get dwell_ms with default 100, where an explicit 0 is falsy and also
falls back to 100. -/
def dwellOf (dwellOverride : Option Int) (h : HopCfg) : Int :=
  let fileDwell := match h.dwell_ms with
    | none => 100
    | some d => if d = 0 then 100 else d
  match dwellOverride with
  | some d => if 0 < d then d else fileDwell
  | none => fileDwell

/-- Mutable state the hop loop threads between rebuilds: the last
adopted (shuffled) plan, its key, and the current dwell. -/
structure PlanState where
  last_plan : Option (List (PyStr × Int))
  last_plan_key : Option (PyStr × Finset Int)
  dwell_ms : Int
deriving DecidableEq

/-- Result of one _build_plan call. -/
structure BuildResult where
  st : PlanState
  enabled : Bool
  shuffled : Bool
  plan : List (PyStr × Int)
deriving DecidableEq

/-- The _build_plan step of the hop loop in live.py.  The shuffle
argument stands for the permutation random.shuffle applies at adoption
time; shuffled reports whether that call happened.  A non-empty plan
whose key differs from the stored key is shuffled and adopted; a plan
with the stored key reuses the previously adopted order. -/
def _build_plan (shuffle : List (PyStr × Int) → List (PyStr × Int))
    (dwellOverride : Option Int) (h : HopCfg) (st : PlanState) : BuildResult :=
  if h.enabled = false then ⟨st, false, false, []⟩
  else
    let plan := (planOf h).2
    let key := keyOf h
    let dwell := dwellOf dwellOverride h
    let adopting := plan ≠ [] ∧ key ≠ st.last_plan_key
    let st1 : PlanState :=
      if adopting then
        { last_plan := some (shuffle plan), last_plan_key := key, dwell_ms := dwell }
      else { st with dwell_ms := dwell }
    let planOut :=
      if plan ≠ [] ∧ key = st1.last_plan_key then
        match st1.last_plan with
        | some lp => if lp = [] then plan else lp
        | none => plan
      else plan
    ⟨st1, true, decide adopting, planOut⟩

/-! ## Theorems -/

/-! ### Split and join lemmas -/

theorem pySplitAux_no_sep (sep : Char) (s : PyStr) : ∀ acc, sep ∉ s →
    pySplitAux sep s acc = [acc.reverse ++ s] := by
  induction s with
  | nil => intro acc _; simp [pySplitAux]
  | cons c cs ih =>
      intro acc h
      have hc : ¬c = sep := fun hh => h (hh ▸ List.mem_cons_self c cs)
      simp only [pySplitAux, if_neg hc]
      rw [ih (c :: acc) (fun hm => h (List.mem_cons_of_mem c hm))]
      simp

theorem pySplitAux_sep_append (sep : Char) (x t : PyStr) : ∀ acc, sep ∉ x →
    pySplitAux sep (x ++ sep :: t) acc = (acc.reverse ++ x) :: pySplitAux sep t [] := by
  induction x with
  | nil => intro acc _; simp [pySplitAux]
  | cons c cs ih =>
      intro acc h
      have hc : ¬c = sep := fun hh => h (hh ▸ List.mem_cons_self c cs)
      simp only [List.cons_append, pySplitAux, if_neg hc, List.append_eq]
      rw [ih (c :: acc) (fun hm => h (List.mem_cons_of_mem c hm))]
      simp

theorem pyJoin_cons_cons (sep : Char) (x y : PyStr) (ys : List PyStr) :
    pyJoin sep (x :: y :: ys) = x ++ sep :: pyJoin sep (y :: ys) := rfl

theorem pySplit_pyJoin (sep : Char) : ∀ xs : List PyStr, xs ≠ [] →
    (∀ x ∈ xs, sep ∉ x) → pySplit sep (pyJoin sep xs) = xs := by
  intro xs
  induction xs with
  | nil => intro h; exact absurd rfl h
  | cons x ys ih =>
      intro _ hall
      cases ys with
      | nil =>
          simp only [pyJoin, pySplit]
          rw [pySplitAux_no_sep sep x [] (hall x (by simp))]
          simp
      | cons y ys2 =>
          rw [pyJoin_cons_cons]
          unfold pySplit
          rw [pySplitAux_sep_append sep x _ [] (hall x (by simp))]
          simp only [List.reverse_nil, List.nil_append]
          congr 1
          exact ih (by simp) (fun z hz => hall z (by simp [hz]))

theorem pyJoin_ne_nil (sep : Char) (x : PyStr) (xs : List PyStr) (hx : x ≠ []) :
    pyJoin sep (x :: xs) ≠ [] := by
  cases xs with
  | nil => simpa [pyJoin] using hx
  | cons y ys => simp [pyJoin_cons_cons]

/-! ### Selector shape lemmas -/

theorem digitChar_ne_comma : ∀ m < 16, Nat.digitChar m ≠ ',' := by decide

theorem decStr_comma_free : ∀ b < 256, ',' ∉ decStr b := by decide

theorem hex2_comma_free (b : Nat) (hb : b < 256) : ',' ∉ hex2 b := by
  have h1 := digitChar_ne_comma (b / 16) (by omega)
  have h2 := digitChar_ne_comma (b % 16) (by omega)
  simp only [hex2, List.mem_cons, List.not_mem_nil, or_false]
  push_neg
  exact ⟨fun hh => h1 hh.symm, fun hh => h2 hh.symm⟩

theorem fmt_selector_four (b0 b1 b2 b3 : Nat) :
    _fmt_selector [b0, b1, b2, b3]
      = hex2 b0 ++ ':' :: hex2 b1 ++ ':' :: hex2 b2 ++ ':' :: decStr b3 := by
  simp [_fmt_selector]

theorem isSelector_comma_free {s : PyStr} (h : IsSelector s) : ',' ∉ s := by
  obtain ⟨b0, b1, b2, b3, h0, h1, h2, h3, rfl⟩ := h
  intro hmem
  have hflat : ',' ∈ hex2 b0 ∨ (',' : Char) = ':' ∨ ',' ∈ hex2 b1
      ∨ ',' ∈ hex2 b2 ∨ ',' ∈ decStr b3 := by
    rw [fmt_selector_four] at hmem
    simp only [List.mem_append, List.mem_cons] at hmem
    tauto
  rcases hflat with hm | hm | hm | hm | hm
  · exact hex2_comma_free b0 h0 hm
  · exact absurd hm (by decide)
  · exact hex2_comma_free b1 h1 hm
  · exact hex2_comma_free b2 h2 hm
  · exact decStr_comma_free b3 h3 hm

theorem isSelector_ne_nil {s : PyStr} (h : IsSelector s) : s ≠ [] := by
  obtain ⟨b0, b1, b2, b3, _, _, _, _, rfl⟩ := h
  rw [fmt_selector_four]
  simp [hex2]

/-! ### Round trip of the selector encoding (claim C10) -/

theorem roundtrip_one (S : Finset PyStr) (h : ∀ s ∈ S, IsSelector s) :
    decode_selectors (encode_selectors S) = S := by
  rcases eq_or_ne S ∅ with rfl | hS
  · simp [encode_selectors, sortedSel, Finset.sort_empty, pyJoin, decode_selectors]
  · have hsort : sortedSel S ≠ [] := by
      intro hh
      apply hS
      have ht := Finset.sort_toFinset (α := PyStr) (· ≤ ·) S
      rw [show Finset.sort (· ≤ ·) S = sortedSel S from rfl, hh] at ht
      simpa using ht.symm
    have hmem : ∀ z ∈ sortedSel S, IsSelector z := fun z hz =>
      h z ((Finset.mem_sort (· ≤ ·)).mp hz)
    obtain ⟨x, xs, hl⟩ : ∃ x xs, sortedSel S = x :: xs := by
      cases hc : sortedSel S with
      | nil => exact absurd hc hsort
      | cons a as => exact ⟨a, as, rfl⟩
    have hx_ne : x ≠ [] := isSelector_ne_nil (hmem x (hl ▸ List.mem_cons_self x xs))
    have hjoin_ne : pyJoin ',' (sortedSel S) ≠ [] := by
      rw [hl]; exact pyJoin_ne_nil ',' x xs hx_ne
    unfold encode_selectors decode_selectors
    rw [if_neg hjoin_ne,
      pySplit_pyJoin ',' (sortedSel S) hsort (fun z hz => isSelector_comma_free (hmem z hz))]
    exact Finset.sort_toFinset (· ≤ ·) S

/-- Claim C10 (confirmed): for every pair of sets of selector strings,
encoding each set by sorting and comma-joining (as the capture pipeline
does when persisting an Event) and re-parsing by comma-splitting (as
the sensor loop does when reading it) yields the original sets, the
empty-set case included. -/
theorem C10_selector_roundtrip (A C : Finset PyStr)
    (hA : ∀ s ∈ A, IsSelector s) (hC : ∀ s ∈ C, IsSelector s) :
    decode_selectors (encode_selectors A) = A
      ∧ decode_selectors (encode_selectors C) = C :=
  ⟨roundtrip_one A hA, roundtrip_one C hC⟩

/-- Witness for C10 at the empty akm set and a singleton cipher set. -/
theorem C10_selector_roundtrip_witness :
    decode_selectors (encode_selectors ∅) = (∅ : Finset PyStr)
      ∧ decode_selectors (encode_selectors {_fmt_selector [0, 15, 172, 4]})
          = {_fmt_selector [0, 15, 172, 4]} :=
  C10_selector_roundtrip ∅ {_fmt_selector [0, 15, 172, 4]}
    (fun s hs => absurd hs (by simp))
    (fun s hs =>
      ⟨0, 15, 172, 4, by omega, by omega, by omega, by omega, Finset.mem_singleton.mp hs⟩)

/-! ### RSN parser truncation (claim C3) -/

theorem readSelectors_subset (n : Nat) (data : List Nat) : ∀ (off : Nat) (acc : Finset PyStr),
    acc ⊆ (readSelectors n data off acc).1 := by
  induction n with
  | zero => intro off acc; simp [readSelectors]
  | succ k ih =>
      intro off acc
      simp only [readSelectors]
      split
      · exact Finset.Subset.refl acc
      · exact (Finset.subset_insert _ acc).trans (ih (off + 4) _)

/-- Counterexample to claim C3 as stated: an RSN payload long enough
for the version and the 4-byte group cipher suite but too short for
the 2-byte pairwise count (6 bytes in all) does not keep the group
cipher; parse_rsn_info returns the empty dict, discarding it. -/
theorem C3_pairwise_count_truncation_cx :
    parse_rsn_data [1, 0, 0, 15, 172, 4] = none := by decide

/-- Claim C3 (as amended): truncation is tolerated only from the
pairwise list onward.  A payload truncated at the pairwise count
itself (length 6 or 7) returns the empty result, discarding the group
cipher.  A payload that still contains the pairwise count (length at
least 8) returns what was parsed so far: the group cipher is in the
cipher set produced by the pairwise reading loop, the ciphers field is
exactly that set however the pairwise list was cut, the akms field is
empty when the bytes run out at the 2-byte AKM count, and otherwise it
is exactly what the AKM reading loop parsed before running out. -/
theorem C3_truncation_amended (data : List Nat) :
    (data.length = 6 ∨ data.length = 7 → parse_rsn_data data = none)
    ∧ (8 ≤ data.length →
        _fmt_selector (slice4 data 2) ∈ (pairwise_stage data).1
        ∧ (data.length < (pairwise_stage data).2 + 2 →
            parse_rsn_data data = some ⟨∅, (pairwise_stage data).1⟩)
        ∧ ((pairwise_stage data).2 + 2 ≤ data.length →
            parse_rsn_data data
              = some ⟨(readSelectors (leU16 data (pairwise_stage data).2) data
                  ((pairwise_stage data).2 + 2) ∅).1,
                (pairwise_stage data).1⟩)) := by
  constructor
  · intro h67
    unfold parse_rsn_data
    rw [if_neg (by omega), if_neg (by omega), if_pos (by omega)]
  · intro h8
    refine ⟨readSelectors_subset _ data 8 _ (Finset.mem_singleton_self _), ?_, ?_⟩
    · intro hlt
      unfold parse_rsn_data
      rw [if_neg (by omega), if_neg (by omega), if_neg (by omega)]
      unfold parse_rsn_tail
      rw [if_pos hlt]
    · intro hge
      unfold parse_rsn_data
      rw [if_neg (by omega), if_neg (by omega), if_neg (by omega)]
      unfold parse_rsn_tail
      rw [if_neg (Nat.not_lt.mpr hge)]

/-- Witness for C3 as amended: an 8-byte payload (pairwise count
present but zero, AKM count cut off) parses to empty akms with the
group cipher kept, and a 10-byte payload whose AKM count is present
parses both stages. -/
theorem C3_truncation_amended_witness :
    parse_rsn_data [1, 0, 0, 15, 172, 4, 0, 0]
        = some ⟨∅, (pairwise_stage [1, 0, 0, 15, 172, 4, 0, 0]).1⟩
    ∧ parse_rsn_data [1, 0, 0, 15, 172, 4, 0, 0, 0, 0]
        = some ⟨(readSelectors
              (leU16 [1, 0, 0, 15, 172, 4, 0, 0, 0, 0]
                (pairwise_stage [1, 0, 0, 15, 172, 4, 0, 0, 0, 0]).2)
              [1, 0, 0, 15, 172, 4, 0, 0, 0, 0]
              ((pairwise_stage [1, 0, 0, 15, 172, 4, 0, 0, 0, 0]).2 + 2) ∅).1,
            (pairwise_stage [1, 0, 0, 15, 172, 4, 0, 0, 0, 0]).1⟩ :=
  ⟨((C3_truncation_amended [1, 0, 0, 15, 172, 4, 0, 0]).2 (by decide)).2.1 (by decide),
   ((C3_truncation_amended [1, 0, 0, 15, 172, 4, 0, 0, 0, 0]).2 (by decide)).2.2
     (by decide)⟩

/-! ### Deauth detection (claims C1 and C2) -/

/-- Counterexample to claim C1 as stated: with per_src_limit 1, a
source with exactly one deauth in the window (count equal to the
limit, not strictly above it) is named an offender. -/
theorem C1_offender_at_limit_cx :
    (detect_deauths none [⟨0, pystr "mgmt.deauth", some (pystr "aa")⟩] 0 1 80).2.2.1
        = [pystr "aa"]
      ∧ (deauthSrcs [⟨0, pystr "mgmt.deauth", some (pystr "aa")⟩] 0).count (pystr "aa") = 1 := by
  decide

/-- Claim C1 (as amended): on every tick the offender list contains
exactly the sources whose windowed deauth count meets or exceeds
per_src_limit (greater or equal, not strictly above), the trigger flag
holds exactly when the total meets global_limit, and the result is
independent of the configured defense (defended SSID or not). -/
theorem C1_detect_deauths_amended (d d2 : Option PyStr) (events : List Ev) (since : Int)
    (per glob : Int) :
    ((detect_deauths d events since per glob).1
        = decide (glob ≤ (((detect_deauths d events since per glob).2.1 : Nat) : Int)))
    ∧ (∀ s, s ∈ (detect_deauths d events since per glob).2.2.1
        ↔ s ∈ deauthSrcs events since
          ∧ per ≤ (((deauthSrcs events since).count s : Nat) : Int))
    ∧ detect_deauths d2 events since per glob = detect_deauths d events since per glob := by
  refine ⟨rfl, ?_, rfl⟩
  intro s
  simp only [detect_deauths, List.mem_map, List.mem_filter, List.mem_dedup,
    decide_eq_true_eq]
  constructor
  · rintro ⟨p, ⟨⟨a, ha, rfl⟩, hper⟩, rfl⟩
    exact ⟨ha, hper⟩
  · rintro ⟨hs, hper⟩
    exact ⟨(s, (deauthSrcs events since).count s), ⟨⟨s, hs, rfl⟩, hper⟩, rfl⟩

/-- Claim C2 (confirmed): on a tick where the firing condition holds,
an unchanged signature within the cooldown suppresses the alert and
leaves the suppression state untouched, while a changed signature
fires immediately, resetting the cooldown timer to the tick time and
recording the new signature. -/
theorem C2_deauth_tick_suppression (cooldown now : Int) (st : DeauthAlarm)
    (total : Nat) (offenders : List PyStr) :
    (st.last_sig = some (mkSig total offenders) → now - st.last_fire_ts < cooldown →
      deauth_tick cooldown now st true total offenders = (st, false))
    ∧ (st.last_sig ≠ some (mkSig total offenders) →
      deauth_tick cooldown now st true total offenders
        = ({ last_fire_ts := now, last_sig := some (mkSig total offenders) }, true)) := by
  constructor
  · intro hsig hsoon
    unfold deauth_tick
    rw [if_neg]
    intro hc
    exact hc.2 ⟨hsoon, hsig⟩
  · intro hsig
    unfold deauth_tick
    rw [if_pos ⟨rfl, fun hc => hsig hc.2⟩]

/-- Witness for C2: a repeated signature of total 80 with no offenders
inside a 60 second cooldown is suppressed, and a tick whose stored
signature had total 90 fires and resets the state. -/
theorem C2_deauth_tick_suppression_witness :
    deauth_tick 60 100 ⟨50, some (mkSig 80 [])⟩ true 80 []
        = (⟨50, some (mkSig 80 [])⟩, false)
      ∧ deauth_tick 60 100 ⟨50, some (mkSig 90 [])⟩ true 80 []
          = (⟨100, some (mkSig 80 [])⟩, true) :=
  ⟨(C2_deauth_tick_suppression 60 100 ⟨50, some (mkSig 80 [])⟩ 80 []).1 rfl (by decide),
   (C2_deauth_tick_suppression 60 100 ⟨50, some (mkSig 90 [])⟩ 80 []).2 (by decide)⟩

/-! ### Store migration (claim C5) -/

theorem alters_foldlM_ok (alterOk : PyStr → Bool) (l : List PyStr) :
    (l.foldlM (fun _ stmt => tryPass (attempt (alterOk stmt) stmt) ()) ()
        : Except PyStr Unit) = Except.ok () := by
  induction l with
  | nil => rfl
  | cons x xs ih =>
      have hx : tryPass (attempt (alterOk x) x) () = Except.ok () := by
        unfold tryPass attempt
        cases alterOk x <;> rfl
      simp only [List.foldlM, hx]
      exact ih

/-- Counterexample to claim C5 as stated: on a column set missing both
RSN columns, both ALTER statements are required, yet when every ALTER
fails to apply ensure_schema still returns normally; the failure does
not propagate to the caller. -/
theorem C5_alter_failure_swallowed_cx :
    required_alters_of [pystr "id", pystr "ts"] = [alterAkms, alterCiphers]
      ∧ ensure_schema (some [pystr "id", pystr "ts"]) (fun _ => false) true
          = Except.ok () :=
  ⟨rfl, rfl⟩

theorem ensure_schema_eq_commit (introspect : Option (List PyStr)) (alterOk : PyStr → Bool)
    (commitOk : Bool) :
    ensure_schema introspect alterOk commitOk = attempt commitOk (pystr "commit failed") := by
  have h1 : (tryPass (introspectCols introspect) [] : Except PyStr (List PyStr))
      = Except.ok (introspect.getD []) := by
    unfold tryPass introspectCols
    cases introspect <;> rfl
  unfold ensure_schema
  rw [h1]
  dsimp only
  rw [alters_foldlM_ok]

/-- Claim C5 (as amended): introspection failure is non-fatal, and so
is a failing required ALTER: every exception raised while applying a
migration statement is swallowed by its own handler, so ensure_schema
propagates no error as long as the final commit succeeds, and only a
commit failure escapes. -/
theorem C5_ensure_schema_amended (introspect : Option (List PyStr)) (alterOk : PyStr → Bool) :
    ensure_schema introspect alterOk true = Except.ok ()
      ∧ ensure_schema introspect alterOk false = Except.error (pystr "commit failed") := by
  rw [ensure_schema_eq_commit, ensure_schema_eq_commit]
  exact ⟨rfl, rfl⟩

/-! ### RSN gating in the capture pipeline (claim C7) -/

/-- Claim C7 (confirmed): RSN decoding of beacons is gated by the
sniffer.parse_rsn key, which defaults to false; unless the key is set
true both rsn columns of every persisted Event are null even when the
frame carries an RSN element, and they are likewise null whenever the
parser returns the empty result. -/
theorem C7_parse_rsn_gate (ev_type : PyStr) (key : Option Bool) (parsed : Option RsnInfo) :
    (key ≠ some true → event_rsn_fields ev_type key parsed = (none, none))
    ∧ (parsed = none → event_rsn_fields ev_type key parsed = (none, none)) := by
  constructor
  · intro hk
    have hfalse : key.getD false = false := by
      cases key with
      | none => rfl
      | some b =>
          cases b with
          | false => rfl
          | true => exact absurd rfl hk
    unfold event_rsn_fields
    dsimp only
    rw [hfalse, if_neg (fun hc => Bool.false_ne_true hc.2)]
  · intro hp
    unfold event_rsn_fields
    dsimp only
    rw [hp, ite_self]

/-- Witness for C7: a beacon carrying a parsed RSN element is stored
with both columns null while the key is absent. -/
theorem C7_parse_rsn_gate_witness :
    event_rsn_fields (pystr "mgmt.beacon") none (some ⟨∅, {pystr "00:0f:ac:4"}⟩)
      = (none, none) :=
  (C7_parse_rsn_gate (pystr "mgmt.beacon") none (some ⟨∅, {pystr "00:0f:ac:4"}⟩)).1
    (by decide)

/-! ### DS-element channel and band derivation (claim C8) -/

/-- Claim C8 (confirmed): whenever the channel comes from a DS
Parameter Set element, the band is inferred from the channel value by
range (1 to 14 is 2.4, 36 to 196 is 5, the rest of 1 to 233 is 6,
anything else is unknown), and the radiotap ChannelFrequency is never
consulted: the result is the same for every frequency value. -/
theorem C8_ds_channel_band (elts : List (Nat × List Nat)) (freq : Option Int) (c : Nat)
    (hds : dsChannel elts = some c) :
    _derive_chan_band ⟨elts, freq⟩
      = ((c : Int),
          if 1 ≤ c ∧ c ≤ 14 then pystr "2.4"
          else if 36 ≤ c ∧ c ≤ 196 then pystr "5"
          else if 1 ≤ c ∧ c ≤ 233 then pystr "6"
          else pystr "?") := by
  unfold _derive_chan_band
  dsimp only
  rw [hds]

/-- Witness for C8: DS channel 6 on a packet whose radiotap frequency
says 5500 MHz is still band 2.4 channel 6. -/
theorem C8_ds_channel_band_witness :
    _derive_chan_band ⟨[(3, [6])], some 5500⟩
      = ((6 : Int),
          if 1 ≤ 6 ∧ 6 ≤ 14 then pystr "2.4"
          else if 36 ≤ 6 ∧ 6 ≤ 196 then pystr "5"
          else if 1 ≤ 6 ∧ 6 ≤ 233 then pystr "6"
          else pystr "?") :=
  C8_ds_channel_band [(3, [6])] (some 5500) 6 (by decide)

/-! ### Rogue detector lemmas (claims C4 and C6) -/

theorem rogue_reason_unknown (aB : Finset PyStr) (aC : Finset Int) (aBand : Finset PyStr)
    (bl : List (PyStr × RsnInfo)) (bssidO : Option PyStr) (bssid : PyStr)
    (chan : Int) (band : PyStr) (akms ciphers : Finset PyStr)
    (hB : aB ≠ ∅) (hb : bssid = [] ∨ bssid ∉ aB) :
    rogue_reason aB aC aBand bl bssidO bssid chan band akms ciphers
      = some (.unknownBssid bssidO) := by
  unfold rogue_reason
  rw [if_pos ⟨hB, hb⟩]

theorem rogue_reason_channel (aB : Finset PyStr) (aC : Finset Int) (aBand : Finset PyStr)
    (bl : List (PyStr × RsnInfo)) (bssidO : Option PyStr) (bssid : PyStr)
    (chan : Int) (band : PyStr) (akms ciphers : Finset PyStr)
    (hb1 : bssid ≠ []) (hbm : bssid ∈ aB) (hC : aC ≠ ∅) (hc : chan ∉ aC) :
    rogue_reason aB aC aBand bl bssidO bssid chan band akms ciphers
      = some (.unapprovedChannel chan) := by
  unfold rogue_reason
  rw [if_neg, if_pos ⟨hC, hc⟩]
  rintro ⟨-, h | h⟩
  · exact hb1 h
  · exact h hbm

theorem rogue_reason_rsn (aB : Finset PyStr) (aC : Finset Int) (aBand : Finset PyStr)
    (bl : List (PyStr × RsnInfo)) (bssidO : Option PyStr) (bssid : PyStr)
    (chan : Int) (band : PyStr) (akms ciphers : Finset PyStr)
    (hB : aB ≠ ∅) (hb1 : bssid ≠ []) (hbm : bssid ∈ aB)
    (hCp : ¬(aC ≠ ∅ ∧ chan ∉ aC)) (hBp : ¬(aBand ≠ ∅ ∧ band ∉ aBand)) :
    rogue_reason aB aC aBand bl bssidO bssid chan band akms ciphers
      = if bl ≠ [] ∧ (akms ≠ ∅ ∨ ciphers ≠ ∅) then
          (match bl.head? with
           | some p =>
               if (p.2.akms ≠ ∅ ∧ akms ≠ ∅ ∧ akms ≠ p.2.akms)
                   ∨ (p.2.ciphers ≠ ∅ ∧ ciphers ≠ ∅ ∧ ciphers ≠ p.2.ciphers) then
                 some (.rsnMismatch bssidO)
               else none
           | none => none)
        else none := by
  unfold rogue_reason
  rw [if_neg (by rintro ⟨-, h | h⟩; exacts [hb1 h, h hbm]),
    if_neg hCp, if_neg hBp]
  by_cases hcond : bl ≠ [] ∧ (akms ≠ ∅ ∨ ciphers ≠ ∅)
  · rw [if_pos ⟨hB, hcond.1, hcond.2⟩, if_pos hcond]
  · rw [if_neg (fun hc => hcond ⟨hc.2.1, hc.2.2⟩), if_neg hcond]

theorem remember_eid_rsn_baseline (st : SensorState) (eid : Int) :
    (remember_eid st eid).2.rsn_baseline = st.rsn_baseline := by
  unfold remember_eid
  by_cases h : eid ∈ st.seen_beacon_set
  · rw [if_pos h]
  · rw [if_neg h]

theorem pwr_check_rsn_baseline (aB : Finset PyStr) (pwrw : Nat) (thr : ℚ) (cd now : Int)
    (bssidO : Option PyStr) (bssid : PyStr) (eid : Int) (rssi : Option Int)
    (st : SensorState) :
    (pwr_check aB pwrw thr cd now bssidO bssid eid rssi st).1.rsn_baseline
      = st.rsn_baseline := by
  unfold pwr_check
  dsimp only
  cases rssi with
  | none => exact remember_eid_rsn_baseline st eid
  | some r =>
      dsimp only
      split
      · split
        · split
          · exact remember_eid_rsn_baseline st eid
          · exact remember_eid_rsn_baseline st eid
        · exact remember_eid_rsn_baseline st eid
      · exact remember_eid_rsn_baseline st eid

theorem pwr_check_not_rsn (aB : Finset PyStr) (pwrw : Nat) (thr : ℚ) (cd now : Int)
    (bssidO : Option PyStr) (bssid : PyStr) (eid : Int) (rssi : Option Int)
    (st : SensorState) (b : Option PyStr) :
    (pwr_check aB pwrw thr cd now bssidO bssid eid rssi st).2
      ≠ some (.rsnMismatch b) := by
  unfold pwr_check
  dsimp only
  cases rssi with
  | none => simp
  | some r =>
      dsimp only
      split
      · split
        · split <;> simp
        · simp
      · simp

theorem process_beacon_body (defense : Defense) (pwrw : Nat) (thr : ℚ) (cd now : Int)
    (st : SensorState) (e : BeaconEv)
    (harmed : defSsid defense ≠ [])
    (hs : e.ssid = some (defSsid defense)) :
    process_beacon defense pwrw thr cd now st e
      = (let bssid := pyLower (e.bssid.getD [])
         let aB := allowedBssidSet defense
         let akms := decode_opt e.rsn_akms
         let ciphers := decode_opt e.rsn_ciphers
         let st1 := update_tracked aB bssid (update_rsn_baseline aB bssid akms ciphers st)
         let reason := rogue_reason aB (allowedChanSet defense) (allowedBandSet defense)
            st1.rsn_baseline e.bssid bssid e.chan e.band akms ciphers
         match reason, e.id with
         | none, some eid =>
             if bssid = [] then (st1, none)
             else pwr_check aB pwrw thr cd now e.bssid bssid eid e.rssi st1
         | r, _ => (st1, r)) := by
  unfold process_beacon
  dsimp only
  rw [if_neg harmed, hs]
  dsimp only
  rw [if_neg (by rintro (h | h); exacts [harmed h, h rfl])]

/-- Claim C4 (confirmed): with both an allowlist of BSSIDs and allowed
channels configured, the BSSID check is applied first: a defended-SSID
beacon from a non-allowlisted (or missing) BSSID yields the unknown
BSSID alert whatever its channel, while a beacon from an allowlisted
BSSID on a non-allowed channel yields the unapproved channel alert. -/
theorem C4_policy_order (defense : Defense) (pwrw : Nat) (thr : ℚ) (cd now : Int)
    (st : SensorState) (e : BeaconEv)
    (harmed : defSsid defense ≠ [])
    (hs : e.ssid = some (defSsid defense))
    (hB : allowedBssidSet defense ≠ ∅)
    (hC : allowedChanSet defense ≠ ∅) :
    ((pyLower (e.bssid.getD []) = [] ∨ pyLower (e.bssid.getD []) ∉ allowedBssidSet defense) →
      (process_beacon defense pwrw thr cd now st e).2
        = some (.unknownBssid e.bssid))
    ∧ (pyLower (e.bssid.getD []) ≠ [] →
       pyLower (e.bssid.getD []) ∈ allowedBssidSet defense →
       e.chan ∉ allowedChanSet defense →
      (process_beacon defense pwrw thr cd now st e).2
        = some (.unapprovedChannel e.chan)) := by
  rw [process_beacon_body defense pwrw thr cd now st e harmed hs]
  dsimp only
  constructor
  · intro hb
    rw [rogue_reason_unknown _ _ _ _ _ _ _ _ _ _ hB hb]
  · intro hb1 hbm hc
    rw [rogue_reason_channel _ _ _ _ _ _ _ _ _ _ hb1 hbm hC hc]

/-- Witness for C4: with allowlist {aa} and allowed channels {36}, a
beacon from bb on channel 36 is an unknown BSSID, and a beacon from aa
on channel 40 is an unapproved channel. -/
theorem C4_policy_order_witness :
    (process_beacon ⟨some (pystr "home"), [pystr "aa"], [36], []⟩ 20 150 10 0
        ⟨[], ∅, [], [], [], ∅⟩
        ⟨none, some (pystr "home"), some (pystr "bb"), 36, pystr "2.4", none, none, none⟩).2
      = some (.unknownBssid (some (pystr "bb")))
    ∧ (process_beacon ⟨some (pystr "home"), [pystr "aa"], [36], []⟩ 20 150 10 0
        ⟨[], ∅, [], [], [], ∅⟩
        ⟨none, some (pystr "home"), some (pystr "aa"), 40, pystr "2.4", none, none, none⟩).2
      = some (.unapprovedChannel 40) :=
  ⟨(C4_policy_order ⟨some (pystr "home"), [pystr "aa"], [36], []⟩ 20 150 10 0
      ⟨[], ∅, [], [], [], ∅⟩
      ⟨none, some (pystr "home"), some (pystr "bb"), 36, pystr "2.4", none, none, none⟩
      (by decide) (by decide) (by decide) (by decide)).1 (by decide),
   (C4_policy_order ⟨some (pystr "home"), [pystr "aa"], [36], []⟩ 20 150 10 0
      ⟨[], ∅, [], [], [], ∅⟩
      ⟨none, some (pystr "home"), some (pystr "aa"), 40, pystr "2.4", none, none, none⟩
      (by decide) (by decide) (by decide) (by decide)).2 (by decide) (by decide) (by decide)⟩

theorem rsnMismatchFirst_cons (p : PyStr × RsnInfo) (tl : List (PyStr × RsnInfo))
    (akms ciphers : Finset PyStr) :
    rsnMismatchFirst (p :: tl) akms ciphers ↔
      (p.2.akms ≠ ∅ ∧ akms ≠ ∅ ∧ akms ≠ p.2.akms)
        ∨ (p.2.ciphers ≠ ∅ ∧ ciphers ≠ ∅ ∧ ciphers ≠ p.2.ciphers) := Iff.rfl

theorem rsnMismatchFirst_nil (akms ciphers : Finset PyStr) :
    ¬rsnMismatchFirst [] akms ciphers := fun h => h

/-- Counterexample to claim C6 as stated, in two parts.  First part:
the allowlisted BSSID aa first advertises an RSN carrying only a
cipher set, which becomes its baseline with an empty akm set; a
subsequent beacon from aa whose non-empty RSN has a different
(non-empty) akm set — an akm-set mismatch against the stored
baseline — produces no rogue_ap alert at all, because the code only
compares a field when it is non-empty on both sides.  Second part:
with two stored baselines (aa first, bb second), a beacon from bb
whose akm set {00:0f:ac:2} differs from bb's own stored baseline akm
set {00:0f:ac:8} — an akm-set mismatch against a stored baseline,
both sides non-empty — also produces no alert, because the code
compares against the first stored baseline only, which this beacon
happens to match. -/
theorem C6_empty_akm_baseline_cx :
    (process_beacon ⟨some (pystr "home"), [pystr "aa"], [], []⟩ 20 150 10 0
        ⟨[], ∅, [], [], [], ∅⟩
        ⟨none, some (pystr "home"), some (pystr "aa"), 6, pystr "2.4", none, none,
          some (pystr "00:0f:ac:4")⟩).1.rsn_baseline
      = [(pystr "aa", ⟨∅, {pystr "00:0f:ac:4"}⟩)]
    ∧ decode_opt (some (pystr "00:0f:ac:2")) = {pystr "00:0f:ac:2"}
    ∧ (process_beacon ⟨some (pystr "home"), [pystr "aa"], [], []⟩ 20 150 10 0
        (process_beacon ⟨some (pystr "home"), [pystr "aa"], [], []⟩ 20 150 10 0
          ⟨[], ∅, [], [], [], ∅⟩
          ⟨none, some (pystr "home"), some (pystr "aa"), 6, pystr "2.4", none, none,
            some (pystr "00:0f:ac:4")⟩).1
        ⟨none, some (pystr "home"), some (pystr "aa"), 6, pystr "2.4", none,
          some (pystr "00:0f:ac:2"), some (pystr "00:0f:ac:4")⟩).2
      = none
    ∧ (process_beacon ⟨some (pystr "home"), [pystr "aa", pystr "bb"], [], []⟩ 20 150 10 0
        (process_beacon ⟨some (pystr "home"), [pystr "aa", pystr "bb"], [], []⟩ 20 150 10 0
          ⟨[], ∅, [], [], [], ∅⟩
          ⟨none, some (pystr "home"), some (pystr "aa"), 6, pystr "2.4", none,
            some (pystr "00:0f:ac:2"), some (pystr "00:0f:ac:4")⟩).1
        ⟨none, some (pystr "home"), some (pystr "bb"), 6, pystr "2.4", none,
          some (pystr "00:0f:ac:8"), some (pystr "00:0f:ac:4")⟩).1.rsn_baseline
      = [(pystr "aa", ⟨{pystr "00:0f:ac:2"}, {pystr "00:0f:ac:4"}⟩),
         (pystr "bb", ⟨{pystr "00:0f:ac:8"}, {pystr "00:0f:ac:4"}⟩)]
    ∧ ({pystr "00:0f:ac:2"} : Finset PyStr) ≠ {pystr "00:0f:ac:8"}
    ∧ (process_beacon ⟨some (pystr "home"), [pystr "aa", pystr "bb"], [], []⟩ 20 150 10 0
        (process_beacon ⟨some (pystr "home"), [pystr "aa", pystr "bb"], [], []⟩ 20 150 10 0
          (process_beacon ⟨some (pystr "home"), [pystr "aa", pystr "bb"], [], []⟩ 20 150 10 0
            ⟨[], ∅, [], [], [], ∅⟩
            ⟨none, some (pystr "home"), some (pystr "aa"), 6, pystr "2.4", none,
              some (pystr "00:0f:ac:2"), some (pystr "00:0f:ac:4")⟩).1
          ⟨none, some (pystr "home"), some (pystr "bb"), 6, pystr "2.4", none,
            some (pystr "00:0f:ac:8"), some (pystr "00:0f:ac:4")⟩).1
        ⟨none, some (pystr "home"), some (pystr "bb"), 6, pystr "2.4", none,
          some (pystr "00:0f:ac:2"), some (pystr "00:0f:ac:4")⟩).2
      = none := by
  refine ⟨by decide, by decide, by decide, by decide, by decide, by decide⟩

/-- Claim C6 (as amended): the first defended-SSID beacon from an
allowlisted BSSID with a non-empty RSN stores that BSSID's baseline
(as update_rsn_baseline states); a subsequent defended-SSID beacon
that passes the policy checks — allowlisted BSSID, channel allowed or
no channel list configured, band allowed or no band list configured —
yields an RSN-mismatch rogue_ap alert exactly when its RSN is
non-empty and it mismatches the FIRST stored baseline, where a field
only counts as mismatching when it is non-empty on both sides (akm
sets or cipher sets differing). -/
theorem C6_rsn_baseline_policy (defense : Defense) (pwrw : Nat) (thr : ℚ) (cd now : Int)
    (st : SensorState) (e : BeaconEv)
    (harmed : defSsid defense ≠ [])
    (hs : e.ssid = some (defSsid defense))
    (hb1 : pyLower (e.bssid.getD []) ≠ [])
    (hbm : pyLower (e.bssid.getD []) ∈ allowedBssidSet defense)
    (hchan : allowedChanSet defense = ∅ ∨ e.chan ∈ allowedChanSet defense)
    (hband : allowedBandSet defense = ∅ ∨ e.band ∈ allowedBandSet defense) :
    ((process_beacon defense pwrw thr cd now st e).1.rsn_baseline
        = (update_rsn_baseline (allowedBssidSet defense) (pyLower (e.bssid.getD []))
            (decode_opt e.rsn_akms) (decode_opt e.rsn_ciphers) st).rsn_baseline)
    ∧ ((process_beacon defense pwrw thr cd now st e).2 = some (.rsnMismatch e.bssid)
        ↔ (decode_opt e.rsn_akms ≠ ∅ ∨ decode_opt e.rsn_ciphers ≠ ∅)
          ∧ rsnMismatchFirst
              (update_rsn_baseline (allowedBssidSet defense) (pyLower (e.bssid.getD []))
                (decode_opt e.rsn_akms) (decode_opt e.rsn_ciphers) st).rsn_baseline
              (decode_opt e.rsn_akms) (decode_opt e.rsn_ciphers)) := by
  have hB : allowedBssidSet defense ≠ ∅ := Finset.ne_empty_of_mem hbm
  have hCp : ¬(allowedChanSet defense ≠ ∅ ∧ e.chan ∉ allowedChanSet defense) := by
    rcases hchan with h | h
    · exact fun hc => hc.1 h
    · exact fun hc => hc.2 h
  have hBp : ¬(allowedBandSet defense ≠ ∅ ∧ e.band ∉ allowedBandSet defense) := by
    rcases hband with h | h
    · exact fun hc => hc.1 h
    · exact fun hc => hc.2 h
  rw [process_beacon_body defense pwrw thr cd now st e harmed hs]
  dsimp only
  have htr : update_tracked (allowedBssidSet defense) (pyLower (e.bssid.getD []))
      (update_rsn_baseline (allowedBssidSet defense) (pyLower (e.bssid.getD []))
        (decode_opt e.rsn_akms) (decode_opt e.rsn_ciphers) st)
      = update_rsn_baseline (allowedBssidSet defense) (pyLower (e.bssid.getD []))
          (decode_opt e.rsn_akms) (decode_opt e.rsn_ciphers) st := by
    unfold update_tracked
    rw [if_neg (fun hc => hB hc.1)]
  rw [htr,
    rogue_reason_rsn _ _ _ _ _ _ _ _ _ _ hB hb1 hbm hCp hBp]
  generalize hstb : update_rsn_baseline (allowedBssidSet defense) (pyLower (e.bssid.getD []))
      (decode_opt e.rsn_akms) (decode_opt e.rsn_ciphers) st = stb
  by_cases hcond : stb.rsn_baseline ≠ []
      ∧ (decode_opt e.rsn_akms ≠ ∅ ∨ decode_opt e.rsn_ciphers ≠ ∅)
  · rw [if_pos hcond]
    obtain ⟨p, tl, hbl⟩ : ∃ p tl, stb.rsn_baseline = p :: tl := by
      cases hblc : stb.rsn_baseline with
      | nil => exact absurd hblc hcond.1
      | cons p tl => exact ⟨p, tl, rfl⟩
    rw [hbl]
    dsimp only [List.head?]
    by_cases hmis : (p.2.akms ≠ ∅ ∧ decode_opt e.rsn_akms ≠ ∅
          ∧ decode_opt e.rsn_akms ≠ p.2.akms)
        ∨ (p.2.ciphers ≠ ∅ ∧ decode_opt e.rsn_ciphers ≠ ∅
          ∧ decode_opt e.rsn_ciphers ≠ p.2.ciphers)
    · rw [if_pos hmis]
      cases hid : e.id with
      | none =>
          refine ⟨hbl, ?_⟩
          exact iff_of_true rfl
            ⟨hcond.2, (rsnMismatchFirst_cons p tl _ _).mpr hmis⟩
      | some eid =>
          refine ⟨hbl, ?_⟩
          exact iff_of_true rfl
            ⟨hcond.2, (rsnMismatchFirst_cons p tl _ _).mpr hmis⟩
    · rw [if_neg hmis]
      have hrhs : ¬((decode_opt e.rsn_akms ≠ ∅ ∨ decode_opt e.rsn_ciphers ≠ ∅)
          ∧ rsnMismatchFirst (p :: tl)
              (decode_opt e.rsn_akms) (decode_opt e.rsn_ciphers)) := by
        rintro ⟨-, hmf⟩
        exact hmis ((rsnMismatchFirst_cons p tl _ _).mp hmf)
      cases hid : e.id with
      | none =>
          exact ⟨hbl, iff_of_false (by simp) hrhs⟩
      | some eid =>
          dsimp only
          rw [if_neg hb1]
          refine ⟨(pwr_check_rsn_baseline _ _ _ _ _ _ _ _ _ _).trans hbl, ?_⟩
          exact iff_of_false (pwr_check_not_rsn _ _ _ _ _ _ _ _ _ _ _) hrhs
  · rw [if_neg hcond]
    have hrhs : ¬((decode_opt e.rsn_akms ≠ ∅ ∨ decode_opt e.rsn_ciphers ≠ ∅)
        ∧ rsnMismatchFirst stb.rsn_baseline
            (decode_opt e.rsn_akms) (decode_opt e.rsn_ciphers)) := by
      rintro ⟨hrsn, hmf⟩
      cases hblc : stb.rsn_baseline with
      | nil =>
          rw [hblc] at hmf
          exact rsnMismatchFirst_nil _ _ hmf
      | cons p tl => exact hcond ⟨by rw [hblc]; exact List.cons_ne_nil p tl, hrsn⟩
    cases hid : e.id with
    | none =>
        exact ⟨rfl, iff_of_false (by simp) hrhs⟩
    | some eid =>
        dsimp only
        rw [if_neg hb1]
        refine ⟨pwr_check_rsn_baseline _ _ _ _ _ _ _ _ _ _, ?_⟩
        exact iff_of_false (pwr_check_not_rsn _ _ _ _ _ _ _ _ _ _ _) hrhs

/-- Witness for C6 as amended: with a configured channel list that the
beacon satisfies, a second beacon from the allowlisted BSSID whose akm
set is non-empty and differs from a baseline whose akm set is also
non-empty fires the RSN-mismatch alert. -/
theorem C6_rsn_baseline_policy_witness :
    (process_beacon ⟨some (pystr "home"), [pystr "aa"], [6], []⟩ 20 150 10 0
        ⟨[(pystr "aa", ⟨{pystr "00:0f:ac:2"}, {pystr "00:0f:ac:4"}⟩)], ∅, [], [], [], ∅⟩
        ⟨none, some (pystr "home"), some (pystr "aa"), 6, pystr "2.4", none,
          some (pystr "00:0f:ac:8"), some (pystr "00:0f:ac:4")⟩).2
      = some (.rsnMismatch (some (pystr "aa"))) :=
  ((C6_rsn_baseline_policy ⟨some (pystr "home"), [pystr "aa"], [6], []⟩ 20 150 10 0
      ⟨[(pystr "aa", ⟨{pystr "00:0f:ac:2"}, {pystr "00:0f:ac:4"}⟩)], ∅, [], [], [], ∅⟩
      ⟨none, some (pystr "home"), some (pystr "aa"), 6, pystr "2.4", none,
        some (pystr "00:0f:ac:8"), some (pystr "00:0f:ac:4")⟩
      (by decide) (by decide) (by decide) (by decide) (by decide) (by decide)).2).mpr
    (by decide)

/-! ### Channel hopper plan adoption (claim C9) -/

theorem build_plan_not_adopting (shuffle : List (PyStr × Int) → List (PyStr × Int))
    (dwellO : Option Int) (h : HopCfg) (st : PlanState)
    (hen : h.enabled = true) (hkey : keyOf h = st.last_plan_key) :
    _build_plan shuffle dwellO h st
      = ⟨{ st with dwell_ms := dwellOf dwellO h }, true, false,
         if (planOf h).2 ≠ [] then
           match st.last_plan with
           | some lp => if lp = [] then (planOf h).2 else lp
           | none => (planOf h).2
         else (planOf h).2⟩ := by
  have hne : ¬h.enabled = false := by simp [hen]
  have hnad : ¬((planOf h).2 ≠ [] ∧ ¬keyOf h = st.last_plan_key) := fun hc => hc.2 hkey
  unfold _build_plan
  rw [if_neg hne]
  dsimp only
  rw [if_neg hnad, decide_eq_false hnad]
  by_cases hp : (planOf h).2 = []
  · rw [if_neg (fun hc => hc.1 hp), if_neg (by simpa using hp)]
  · rw [if_pos ⟨hp, hkey⟩, if_pos (by simpa using hp)]

theorem build_plan_adopting (shuffle : List (PyStr × Int) → List (PyStr × Int))
    (dwellO : Option Int) (h : HopCfg) (st : PlanState)
    (hen : h.enabled = true) (hplan : (planOf h).2 ≠ [])
    (hkey : keyOf h ≠ st.last_plan_key) :
    _build_plan shuffle dwellO h st
      = ⟨{ last_plan := some (shuffle (planOf h).2), last_plan_key := keyOf h,
           dwell_ms := dwellOf dwellO h }, true, true,
         if shuffle (planOf h).2 = [] then (planOf h).2 else shuffle (planOf h).2⟩ := by
  have hne : ¬h.enabled = false := by simp [hen]
  have had : (planOf h).2 ≠ [] ∧ ¬keyOf h = st.last_plan_key := ⟨hplan, hkey⟩
  unfold _build_plan
  rw [if_neg hne]
  dsimp only
  rw [if_pos had, decide_eq_true_eq.mpr had, if_pos ⟨hplan, rfl⟩]

/-- Counterexample to claim C9 as stated: a list-mode plan over the
channels 1, 6 and 11 is adopted (shuffled once); a later rebuild in
mode all with an identical channel set adopts and shuffles again,
because the adoption key pairs the mode tag with the channel set.  The
plan is therefore re-shuffled without any change to the channel
set. -/
theorem C9_mode_change_reshuffle_cx :
    (_build_plan id none
        ⟨true, some (pystr "list"), none, none, none, none, none, some [1, 6, 11], none⟩
        ⟨none, none, 250⟩).shuffled = true
    ∧ (_build_plan id none
        ⟨true, some (pystr "all"), some [pystr "2.4"], some [1, 6, 11], none, none, none,
          none, none⟩
        (_build_plan id none
          ⟨true, some (pystr "list"), none, none, none, none, none, some [1, 6, 11], none⟩
          ⟨none, none, 250⟩).st).shuffled = true
    ∧ chanSet (_build_plan id none
        ⟨true, some (pystr "all"), some [pystr "2.4"], some [1, 6, 11], none, none, none,
          none, none⟩
        (_build_plan id none
          ⟨true, some (pystr "list"), none, none, none, none, none, some [1, 6, 11], none⟩
          ⟨none, none, 250⟩).st).plan
      = chanSet (_build_plan id none
          ⟨true, some (pystr "list"), none, none, none, none, none, some [1, 6, 11], none⟩
          ⟨none, none, 250⟩).plan := by
  decide

/-- Claim C9 (as amended): the plan is shuffled exactly when a
non-empty plan is adopted under a key — the pair of mode tag and
channel set — that differs from the stored key; a rebuild whose key
equals the stored one performs no shuffle and reuses the previously
adopted order unchanged.  Re-shuffling therefore happens on any key
change, including a mode change with an identical channel set, not
only on a channel-set change. -/
theorem C9_plan_shuffle_amended (shuffle : List (PyStr × Int) → List (PyStr × Int))
    (dwellO : Option Int) (h : HopCfg) (st : PlanState) (hen : h.enabled = true) :
    (keyOf h = st.last_plan_key →
      (_build_plan shuffle dwellO h st).shuffled = false
      ∧ (_build_plan shuffle dwellO h st).st.last_plan = st.last_plan
      ∧ (_build_plan shuffle dwellO h st).st.last_plan_key = st.last_plan_key
      ∧ (∀ lp, st.last_plan = some lp → lp ≠ [] → (planOf h).2 ≠ [] →
          (_build_plan shuffle dwellO h st).plan = lp))
    ∧ ((planOf h).2 ≠ [] → keyOf h ≠ st.last_plan_key →
      (_build_plan shuffle dwellO h st).shuffled = true
      ∧ (_build_plan shuffle dwellO h st).st.last_plan = some (shuffle (planOf h).2)
      ∧ (_build_plan shuffle dwellO h st).st.last_plan_key = keyOf h) := by
  constructor
  · intro hkey
    rw [build_plan_not_adopting shuffle dwellO h st hen hkey]
    refine ⟨rfl, rfl, rfl, ?_⟩
    intro lp hlp hlpne hplan
    dsimp only
    rw [if_pos hplan, hlp]
    exact if_neg hlpne
  · intro hplan hkey
    rw [build_plan_adopting shuffle dwellO h st hen hplan hkey]
    exact ⟨rfl, rfl, rfl⟩

/-- Witness for C9 as amended: rebuilding the adopted list-mode plan
with an unchanged configuration reuses the shuffled order and does not
shuffle again; the first adoption from the empty state shuffles. -/
theorem C9_plan_shuffle_amended_witness :
    ((_build_plan id none
        ⟨true, some (pystr "list"), none, none, none, none, none, some [1, 6, 11], none⟩
        ⟨some [(pystr "2.4", 6), (pystr "2.4", 1), (pystr "2.4", 11)],
          some (pystr "list", {1, 6, 11}), 100⟩).shuffled = false
      ∧ (_build_plan id none
          ⟨true, some (pystr "list"), none, none, none, none, none, some [1, 6, 11], none⟩
          ⟨some [(pystr "2.4", 6), (pystr "2.4", 1), (pystr "2.4", 11)],
            some (pystr "list", {1, 6, 11}), 100⟩).plan
        = [(pystr "2.4", 6), (pystr "2.4", 1), (pystr "2.4", 11)])
    ∧ (_build_plan id none
        ⟨true, some (pystr "list"), none, none, none, none, none, some [1, 6, 11], none⟩
        ⟨none, none, 250⟩).shuffled = true := by
  have hspec := C9_plan_shuffle_amended id none
    ⟨true, some (pystr "list"), none, none, none, none, none, some [1, 6, 11], none⟩
    ⟨some [(pystr "2.4", 6), (pystr "2.4", 1), (pystr "2.4", 11)],
      some (pystr "list", {1, 6, 11}), 100⟩ rfl
  have hspec2 := C9_plan_shuffle_amended id none
    ⟨true, some (pystr "list"), none, none, none, none, none, some [1, 6, 11], none⟩
    ⟨none, none, 250⟩ rfl
  have h1 := hspec.1 (by decide)
  refine ⟨⟨h1.1, ?_⟩, (hspec2.2 (by decide) (by decide)).1⟩
  exact h1.2.2.2 [(pystr "2.4", 6), (pystr "2.4", 1), (pystr "2.4", 11)] rfl
    (by decide) (by decide)

end PiGuard
